import Mathlib

/-!
Shallow embedding of the conversation subsystem of the Bible-verse Discord
bot (`src/source/conversation.py`): per-user JSON chat files, the
`load_chat` / `save_chat` / `clear_chat` / `log_quote` helpers, and
`ConversationManager.chat` with its retry/fallback loop over Gemini models.

Modelling decisions (all traced to the Python source):

* A user's chat file (`assets/chat_{user_id}.json`) is modelled per user as
  `File := Option FileState`; `none` is "file does not exist",
  `FileState.valid r` is a well-formed JSON record, `FileState.corrupt` is
  any file whose contents `json.load` cannot parse back into a record
  (this includes a file truncated by an interrupted write).
* I/O faults that the claims are about are threaded explicitly as a
  `SaveFault` argument: `ok` (the write succeeds), `openFail`
  (`open(path, "w")` itself raises, the file is untouched), and
  `writeFail` (`open(path, "w")` succeeded — truncating the file in
  place — and `json.dump` then raised mid-write, leaving unparsable
  partial contents).  `save_chat` catches every exception and only logs it.
* The Gemini call is a stub `gen : String → Nat → GenOutcome` giving the
  outcome of calling `generate_content` on a model name at a 1-based
  attempt number, mirroring how the spec's test scenarios stub generation.
* `time.sleep` durations are collected into a list instead of sleeping.
* Timestamps (`_now_iso`) are passed in as an opaque string `now`.
-/

namespace Conversation

/-- `MAX_HISTORY_MESSAGES = 40` — cap on stored turns. -/
def MAX_HISTORY_MESSAGES : Nat := 40

/-- `DEFAULT_MODEL = "gemini-3-flash-preview"`. -/
def DEFAULT_MODEL : String := "gemini-3-flash-preview"

/-- `FALLBACK_MODEL = "gemini-2.5-flash"` — used when primary is rate-limited. -/
def FALLBACK_MODEL : String := "gemini-2.5-flash"

/-- The `meta` dict attached by `log_quote` to a verse-delivery entry. -/
structure MsgMeta where
  reference : String
  version : String
  src : String
  deriving Repr, DecidableEq

/-- One entry of the `messages` list of a chat file.  Plain chat turns
(from `chat`) carry no `event_type`/`meta` keys, modelled as `none`. -/
structure Msg where
  role : String
  content : String
  timestamp : String
  event_type : Option String
  meta : Option MsgMeta
  deriving Repr, DecidableEq

/-- The JSON record of one user's chat file. -/
structure Record where
  user_id : String
  created_at : String
  updated_at : String
  messages : List Msg
  deriving Repr, DecidableEq

/-- On-disk contents of one user's chat file: either a record that
`json.load` parses back, or contents that fail to parse. -/
inductive FileState
  | valid (r : Record)
  | corrupt
  deriving Repr, DecidableEq

/-- One user's chat file: `none` when `os.path.exists` is false. -/
def File := Option FileState
deriving instance Repr, DecidableEq for File

/-- Outcome of a `save_chat` write attempt (see module docstring). -/
inductive SaveFault
  | ok
  | openFail
  | writeFail
  deriving Repr, DecidableEq

/-- The fresh record `load_chat` builds when the file is missing or
unreadable (`conversation.py` lines 102-108). -/
def freshRecord (user_id now : String) : Record :=
  { user_id := user_id, created_at := now, updated_at := now, messages := [] }

/-- `load_chat(user_id)` (`conversation.py` lines 88-108): return the
parsed record when the file exists and parses; on a missing file or any
read/parse exception, log and return a brand-new record.  Total: it never
raises. -/
def load_chat (file : File) (user_id now : String) : Record :=
  match file with
  | some (.valid r) => r
  | some .corrupt => freshRecord user_id now
  | none => freshRecord user_id now

/-- The trim `save_chat` applies before writing (lines 121-124):
`if len(messages) > MAX_HISTORY_MESSAGES: messages[-MAX_HISTORY_MESSAGES:]`.
`List.drop (l.length - 40)` is exactly the last-40 suffix. -/
def trimMessages (l : List Msg) : List Msg :=
  if l.length > MAX_HISTORY_MESSAGES then l.drop (l.length - MAX_HISTORY_MESSAGES)
  else l

/-- `save_chat(record)` (lines 111-131): set `updated_at`, trim to the cap,
then `open(path, "w")` and `json.dump`; any exception is caught and logged.
`openFail`: `open` raised, the prior file is untouched.  `writeFail`:
`open(path, "w")` already truncated the file in place and `json.dump`
raised mid-write, so the file holds partial, unparsable contents. -/
def save_chat (prior : File) (record : Record) (now : String)
    (fault : SaveFault) : File :=
  let trimmed : Record :=
    { record with updated_at := now, messages := trimMessages record.messages }
  match fault with
  | .ok => some (.valid trimmed)
  | .openFail => prior
  | .writeFail => some .corrupt

/-- `clear_chat(user_id)` (lines 134-142): `os.remove` the file when it
exists (deletion modelled as succeeding); a missing file is a no-op.
Exceptions from `os.remove` are caught and logged, so the call never
raises either way. -/
def clear_chat (_file : File) : File := (none : File)

/-- The content string `log_quote` builds (lines 180-184). -/
def quoteContent (text reference version src : String) : String :=
  "[Verse sent to user | source=" ++ src ++ " | version=" ++ version ++ "]\n"
    ++ reference ++ "\n" ++ text

/-- The message dict `log_quote` appends (lines 185-193). -/
def quoteMsg (text reference version src now : String) : Msg :=
  { role := "model"
    content := quoteContent text reference version src
    timestamp := now
    event_type := some "verse_delivery"
    meta := some { reference := reference, version := version, src := src } }

/-- `log_quote(user_id, text, reference, version, source)` (lines 151-195):
load the record, append a verse-delivery entry with role `"model"`, and
`save_chat` it.  It never calls the LLM: the definition takes no
generation stub. -/
def log_quote (file : File) (user_id text reference version src now : String)
    (fault : SaveFault) : File :=
  let record := load_chat file user_id now
  let record' :=
    { record with
        messages := record.messages ++ [quoteMsg text reference version src now] }
  save_chat file record' now fault

/-- Outcome of one `generate_content` call, as the stub reports it:
`success` (the reply text after the `or ""` coercion), `transient` (one of
the `_RETRYABLE` network exceptions: `ssl.SSLError`, `ConnectionResetError`,
`ConnectionError`, `OSError`), `clientError code msg`
(`genai_errors.ClientError` with its HTTP code and message), or
`otherError` (any other exception). -/
inductive GenOutcome
  | success (text : String)
  | transient
  | clientError (code : Nat) (msg : String)
  | otherError (msg : String)

/-- Errors `chat` can raise to its caller.  `rateLimited` is the distinct
`RateLimitError` (lines 70-71, raised at 316-319); `client` is a
propagated non-rate-limit `genai_errors.ClientError` (line 309);
`unexpected` is any other propagated exception (line 312). -/
inductive ChatError
  | rateLimited
  | client (code : Nat) (msg : String)
  | unexpected (msg : String)
  deriving Repr, DecidableEq

/-- `p` starts the character list `l`. -/
def leadsList (p : List Char) : List Char → Bool :=
  fun l =>
    match p, l with
    | [], _ => true
    | _ :: _, [] => false
    | a :: ps, b :: ls => a == b && leadsList ps ls

/-- `p` occurs somewhere in the character list `l`. -/
def occursIn (p : List Char) : List Char → Bool
  | [] => leadsList p []
  | b :: ls => leadsList p (b :: ls) || occursIn p ls

/-- `p` occurs as a substring of `s` (Python's `p in s`). -/
def containsSub (s p : String) : Bool := occursIn p.toList s.toList

/-- Python's `str.lower()` (ASCII range, which covers the API's error
messages), character by character. -/
def toLowerStr (s : String) : String := String.mk (s.toList.map Char.toLower)

/-- The rate-limit test on a `ClientError` (line 306):
`e.code in (429, 503) or "quota" in str(e).lower() or "rate" in str(e).lower()`. -/
def isRateLimit (code : Nat) (msg : String) : Bool :=
  code == 429 || code == 503
    || containsSub (toLowerStr msg) "quota" || containsSub (toLowerStr msg) "rate"

/-- How the inner attempt loop for one model ends: a reply, a fall-through
to the next model (`break` with `reply_text` still `None`), or an
exception propagated out of `chat`. -/
inductive AttemptRes
  | gotReply (text : String)
  | giveUp
  | fatal (e : ChatError)
  deriving Repr, DecidableEq

/-- The inner loop `for attempt in range(1, 4)` of `chat` (lines 285-312),
run over the remaining attempt numbers.  Returns the loop's exit, the
number of `generate_content` calls made, and the `time.sleep` durations
(`2 * attempt`: 2s then 4s).  On `transient` at `attempt < 3` it sleeps
and retries; at attempt 3 it breaks (give up on this model).  On a
rate-limit `ClientError` it breaks immediately; any other `ClientError`
or unexpected exception propagates. -/
def tryAttempts (gen : Nat → GenOutcome) : List Nat → AttemptRes × Nat × List Nat
  | [] => (.giveUp, 0, [])
  | a :: rest =>
    match gen a with
    | .success t => (.gotReply t, 1, [])
    | .transient =>
        if a < 3 then
          let (r, n, s) := tryAttempts gen rest
          (r, n + 1, 2 * a :: s)
        else (.giveUp, 1, [])
    | .clientError c m =>
        if isRateLimit c m then (.giveUp, 1, [])
        else (.fatal (.client c m), 1, [])
    | .otherError m => (.fatal (.unexpected m), 1, [])

/-- Up to 3 attempts against one model. -/
def tryModel (gen : Nat → GenOutcome) : AttemptRes × Nat × List Nat :=
  tryAttempts gen [1, 2, 3]

/-- How the outer `for model in models_to_try` loop ends. -/
inductive ModelsOutcome
  | ok (text : String)
  | exhausted
  | fatal (e : ChatError)
  deriving Repr, DecidableEq

/-- The outer model loop of `chat` (lines 284-314): try each model in
order; a model's `giveUp` falls through to the next, a reply or a fatal
error ends the loop.  Alongside the outcome it returns the trace: for
each model actually tried, its name, the number of calls made against it,
and the sleeps taken. -/
def tryModels (gen : String → Nat → GenOutcome) :
    List String → ModelsOutcome × List (String × Nat × List Nat)
  | [] => (.exhausted, [])
  | m :: rest =>
    match tryModel (gen m) with
    | (.gotReply t, n, s) => (.ok t, [(m, n, s)])
    | (.giveUp, n, s) =>
        let (o, tr) := tryModels gen rest
        (o, (m, n, s) :: tr)
    | (.fatal e, n, s) => (.fatal e, [(m, n, s)])

/-- The user turn `chat` appends (lines 268-270). -/
def userMsg (text now : String) : Msg :=
  { role := "user", content := text, timestamp := now,
    event_type := none, meta := none }

/-- The model turn `chat` appends on success (lines 322-324). -/
def modelMsg (text now : String) : Msg :=
  { role := "model", content := text, timestamp := now,
    event_type := none, meta := none }

/-- Result of one `chat` call: what it returns or raises, the resulting
on-disk file, and the per-model attempt trace. -/
structure ChatResult where
  result : Except ChatError String
  disk : File
  trace : List (String × Nat × List Nat)

/-- `ConversationManager.chat(user_id, user_message)` (lines 247-327):
load the record, append the user turn **to the in-memory list**, run the
retry/fallback loop over `[self._model, FALLBACK_MODEL]`; if no model
produced a reply raise `RateLimitError`; otherwise append the model turn
and `save_chat`.  Note that `save_chat` is only reached on success: on any
raised error the on-disk file is left as it was. -/
def chat (disk : File) (user_id user_message now : String)
    (gen : String → Nat → GenOutcome) (fault : SaveFault)
    (primary : String) : ChatResult :=
  let record := load_chat disk user_id now
  let msgs := record.messages ++ [userMsg user_message now]
  match tryModels gen [primary, FALLBACK_MODEL] with
  | (.ok t, tr) =>
      let record' := { record with messages := msgs ++ [modelMsg t now] }
      { result := .ok t, disk := save_chat disk record' now fault, trace := tr }
  | (.exhausted, tr) => { result := .error .rateLimited, disk := disk, trace := tr }
  | (.fatal e, tr) => { result := .error e, disk := disk, trace := tr }

/-- `ConversationManager.reset(user_id)` (lines 329-331): delegates to
`clear_chat`. -/
def reset (disk : File) : File := clear_chat disk

/-- `ConversationManager.history(user_id)` (lines 333-335): reload the
record from disk and return its message list. -/
def history (disk : File) (user_id now : String) : List Msg :=
  (load_chat disk user_id now).messages

/-- Number of messages stored on disk (what `history` returns the length
of). -/
def histLen (disk : File) (user_id now : String) : Nat :=
  (history disk user_id now).length

/-- One store-mutating operation on a user's file, for stating invariants
over operation sequences: a `chat` call (with its stub, fault and
timestamp) or a `log_quote` call. -/
inductive Op
  | chatOp (user_message now : String) (gen : String → Nat → GenOutcome)
      (fault : SaveFault) (primary : String)
  | quoteOp (text reference version src now : String) (fault : SaveFault)

/-- Apply one operation to a user's file. -/
def applyOp (user_id : String) (disk : File) : Op → File
  | .chatOp m now gen fault primary => (chat disk user_id m now gen fault primary).disk
  | .quoteOp text reference version src now fault =>
      log_quote disk user_id text reference version src now fault

/-- Apply a sequence of operations, oldest first. -/
def applyOps (user_id : String) (disk : File) : List Op → File
  | [] => disk
  | op :: ops => applyOps user_id (applyOp user_id disk op) ops

/-- Stub for the claim-C5 scenario: a transient network failure on the
first two attempts (whatever the model), then success with `reply`. -/
def transientTwiceStub (reply : String) : String → Nat → GenOutcome :=
  fun _ a => if a ≤ 2 then .transient else .success reply

/-- Stub for the claim-C3 scenario: a quota-exceeded client error on the
primary model, success with `reply` on any other model. -/
def quotaPrimaryStub (primary reply : String) : String → Nat → GenOutcome :=
  fun m _ =>
    if m = primary then .clientError 429 "Quota exceeded for this model"
    else .success reply

/-! ## Helper lemmas -/

theorem trimMessages_length_le (l : List Msg) :
    (trimMessages l).length ≤ MAX_HISTORY_MESSAGES := by
  rw [trimMessages]
  split
  next h => simp only [List.length_drop]; omega
  next h => omega

theorem trimMessages_suffix (l : List Msg) : trimMessages l <:+ l := by
  rw [trimMessages]
  split
  · exact List.drop_suffix _ _
  · exact List.suffix_refl l

theorem save_chat_histLen_le (prior : File) (record : Record)
    (now uid obsNow : String) (fault : SaveFault)
    (h : histLen prior uid obsNow ≤ MAX_HISTORY_MESSAGES) :
    histLen (save_chat prior record now fault) uid obsNow
      ≤ MAX_HISTORY_MESSAGES := by
  cases fault with
  | ok =>
      simpa [save_chat, histLen, history, load_chat] using
        trimMessages_length_le record.messages
  | openFail => exact h
  | writeFail => simp [save_chat, histLen, history, load_chat, freshRecord]

theorem applyOp_histLen_le (uid obsNow : String) (disk : File) (op : Op)
    (h : histLen disk uid obsNow ≤ MAX_HISTORY_MESSAGES) :
    histLen (applyOp uid disk op) uid obsNow ≤ MAX_HISTORY_MESSAGES := by
  cases op with
  | chatOp m now gen fault primary =>
      rcases hq : tryModels gen [primary, FALLBACK_MODEL] with ⟨o, tr⟩
      cases o with
      | ok t =>
          simp only [applyOp, chat, hq]
          exact save_chat_histLen_le _ _ _ _ _ _ h
      | exhausted => simpa [applyOp, chat, hq] using h
      | fatal e => simpa [applyOp, chat, hq] using h
  | quoteOp text reference version src now fault =>
      simp only [applyOp, log_quote]
      exact save_chat_histLen_le _ _ _ _ _ _ h

theorem applyOps_histLen_le (uid obsNow : String) (ops : List Op) (disk : File)
    (h : histLen disk uid obsNow ≤ MAX_HISTORY_MESSAGES) :
    histLen (applyOps uid disk ops) uid obsNow ≤ MAX_HISTORY_MESSAGES := by
  induction ops generalizing disk with
  | nil => exact h
  | cons op rest ih => exact ih _ (applyOp_histLen_le uid obsNow disk op h)

theorem tryAttempts_giveUp (gen : Nat → GenOutcome)
    (h : ∀ a, gen a = .transient ∨
      ∃ c s, gen a = .clientError c s ∧ isRateLimit c s = true) :
    ∀ as : List Nat, (tryAttempts gen as).1 = .giveUp := by
  intro as
  induction as with
  | nil => rfl
  | cons a rest ih =>
      rcases h a with ht | ⟨c, s, hc, hrl⟩
      · by_cases hlt : a < 3
        · simp [tryAttempts, ht, hlt, ih]
        · simp [tryAttempts, ht, hlt]
      · simp [tryAttempts, hc, hrl]

theorem tryModels_exhausted (gen : String → Nat → GenOutcome)
    (h : ∀ m a, gen m a = .transient ∨
      ∃ c s, gen m a = .clientError c s ∧ isRateLimit c s = true) :
    ∀ ms : List String, (tryModels gen ms).1 = .exhausted := by
  intro ms
  induction ms with
  | nil => rfl
  | cons m rest ih =>
      have hm : (tryModel (gen m)).1 = .giveUp :=
        tryAttempts_giveUp (gen m) (h m) [1, 2, 3]
      rcases hq : tryModel (gen m) with ⟨r, n, s⟩
      rw [hq] at hm
      simp only at hm
      subst hm
      simp [tryModels, hq, ih]

/-! ## Claim theorems -/

/-- Claim C1, counterexample: with an empty store and a stub where all
models fail transiently, `chat` raises the exhaustion error, yet the
stored history subsequently returned by `history` is empty — the human
turn appended at the start of the call is NOT present (it was never
persisted), contradicting the claim as stated. -/
theorem chat_failure_drops_user_turn_cex :
    (chat (none : File) "u1" "hello" "t0"
        (fun _ _ => .transient) .ok DEFAULT_MODEL).result
      = .error .rateLimited ∧
    history (chat (none : File) "u1" "hello" "t0"
        (fun _ _ => .transient) .ok DEFAULT_MODEL).disk "u1" "t0" = [] ∧
    userMsg "hello" "t0" ∉
      history (chat (none : File) "u1" "hello" "t0"
        (fun _ _ => .transient) .ok DEFAULT_MODEL).disk "u1" "t0" := by
  refine ⟨rfl, rfl, ?_⟩
  have h : history (chat (none : File) "u1" "hello" "t0"
      (fun _ _ => .transient) .ok DEFAULT_MODEL).disk "u1" "t0" = ([] : List Msg) := rfl
  rw [h]
  exact List.not_mem_nil _

/-- Claim C1, amended: if `chat(user_id, message)` fails — with the
exhaustion error or a propagated non-retryable error — the on-disk file
is left exactly as it was before the call, so the stored history
subsequently returned by `history(user_id)` is unchanged: the human turn
appended to the in-memory list is never persisted (`save_chat` is only
reached on success), so nothing is rolled back and nothing is added. -/
theorem chat_failure_leaves_history_unchanged (disk : File)
    (user_id user_message now obsNow primary : String)
    (gen : String → Nat → GenOutcome) (fault : SaveFault) (e : ChatError)
    (h : (chat disk user_id user_message now gen fault primary).result = .error e) :
    (chat disk user_id user_message now gen fault primary).disk = disk ∧
    history (chat disk user_id user_message now gen fault primary).disk
        user_id obsNow
      = history disk user_id obsNow := by
  rcases hq : tryModels gen [primary, FALLBACK_MODEL] with ⟨o, tr⟩
  cases o with
  | ok t => simp [chat, hq] at h
  | exhausted => constructor <;> simp [chat, hq]
  | fatal e2 => constructor <;> simp [chat, hq]

/-- Witness for the amended claim C1 at a concrete input. -/
theorem chat_failure_leaves_history_unchanged_witness :
    (chat (none : File) "u2" "hi" "t1"
        (fun _ _ => .transient) .ok DEFAULT_MODEL).disk = (none : File) :=
  (chat_failure_leaves_history_unchanged (none : File) "u2" "hi" "t1" "t1"
    DEFAULT_MODEL (fun _ _ => .transient) .ok .rateLimited rfl).1

/-- Claim C2: the claim requires that a failing save never corrupts the
previous on-disk state.  The code opens the target file with mode `"w"`,
which truncates it in place before `json.dump` writes; a dump that fails
mid-write therefore destroys the prior valid file: the file afterwards is
unparsable (a reader observes the half-written file), it no longer equals
the prior valid file, and a subsequent `load_chat` loses the prior record
and returns a fresh one. -/
theorem save_chat_writeFail_corrupts (r0 record : Record)
    (now uid obsNow : String) :
    save_chat (some (.valid r0)) record now .writeFail = some .corrupt ∧
    (some FileState.corrupt : File) ≠ (some (.valid r0) : File) ∧
    load_chat (some .corrupt) uid obsNow = freshRecord uid obsNow := by
  refine ⟨rfl, ?_, rfl⟩
  intro hcontra
  exact FileState.noConfusion (Option.some.inj hcontra)

/-- Claim C3: on a rate-limit `ClientError` from the current model (HTTP
429/503 or a quota/rate keyword), the attempt loop is abandoned after
that single call — exactly one attempt, no sleeps — and control falls
through to the next model.  Concretely, with the stub that reports
quota-exceeded on the primary model and succeeds on the fallback, `chat`
returns the fallback's reply and the trace shows exactly one attempt
against the primary. -/
theorem chat_quota_falls_through (user_id hello now reply : String) :
    (∀ (gen : Nat → GenOutcome) (c : Nat) (m : String),
        gen 1 = .clientError c m → isRateLimit c m = true →
        tryModel gen = (.giveUp, 1, [])) ∧
    (chat (none : File) user_id hello now
        (quotaPrimaryStub DEFAULT_MODEL reply) .ok DEFAULT_MODEL).result
      = .ok reply ∧
    (chat (none : File) user_id hello now
        (quotaPrimaryStub DEFAULT_MODEL reply) .ok DEFAULT_MODEL).trace
      = [(DEFAULT_MODEL, 1, []), (FALLBACK_MODEL, 1, [])] := by
  refine ⟨?_, rfl, rfl⟩
  intro gen c m h1 h2
  simp [tryModel, tryAttempts, h1, h2]

/-- Witness for claim C3 at a concrete input. -/
theorem chat_quota_falls_through_witness :
    tryModel (fun _ => GenOutcome.clientError 429 "quota") = (.giveUp, 1, []) ∧
    (chat (none : File) "u3" "hey" "t2"
        (quotaPrimaryStub DEFAULT_MODEL "fallback reply") .ok DEFAULT_MODEL).result
      = .ok "fallback reply" :=
  ⟨(chat_quota_falls_through "u3" "hey" "t2" "fallback reply").1
      (fun _ => GenOutcome.clientError 429 "quota") 429 "quota" rfl rfl,
    (chat_quota_falls_through "u3" "hey" "t2" "fallback reply").2.1⟩

/-- Claim C4: over any sequence of `chat` / `log_quote` operations for a
user starting from no record, the stored message-list length never
exceeds the cap of 40; trimming always keeps a suffix of the appended
list (oldest dropped first, never mid-sequence), and when truncation
occurs the retained messages are exactly the most recent 40 in their
original order. -/
theorem history_cap_and_fifo (user_id obsNow : String) (ops : List Op) :
    histLen (applyOps user_id (none : File) ops) user_id obsNow
      ≤ MAX_HISTORY_MESSAGES ∧
    (∀ l : List Msg, trimMessages l <:+ l) ∧
    (∀ l : List Msg, l.length > MAX_HISTORY_MESSAGES →
      trimMessages l = l.drop (l.length - MAX_HISTORY_MESSAGES) ∧
      (trimMessages l).length = MAX_HISTORY_MESSAGES) := by
  refine ⟨?_, trimMessages_suffix, ?_⟩
  · exact applyOps_histLen_le user_id obsNow ops (none : File)
      (by simp [histLen, history, load_chat, freshRecord])
  · intro l hl
    rw [trimMessages, if_pos hl]
    refine ⟨rfl, ?_⟩
    simp only [List.length_drop]
    omega

/-- Witness for claim C4 at a concrete input: one logged quote keeps the
length under the cap, and a 41-element list is trimmed to its last 40. -/
theorem history_cap_and_fifo_witness :
    histLen (applyOps "u4" (none : File)
        [Op.quoteOp "For God so loved the world" "John 3:16" "KJV" "quote" "t3" .ok])
        "u4" "t3" ≤ MAX_HISTORY_MESSAGES ∧
    trimMessages (List.replicate 41 (userMsg "x" "t"))
      = (List.replicate 41 (userMsg "x" "t")).drop 1 ∧
    (trimMessages (List.replicate 41 (userMsg "x" "t"))).length
      = MAX_HISTORY_MESSAGES := by
  have h := history_cap_and_fifo "u4" "t3"
    [Op.quoteOp "For God so loved the world" "John 3:16" "KJV" "quote" "t3" .ok]
  have h41 := h.2.2 (List.replicate 41 (userMsg "x" "t"))
    (by simp [MAX_HISTORY_MESSAGES])
  refine ⟨h.1, ?_, h41.2⟩
  have hlen : (List.replicate 41 (userMsg "x" "t")).length = 41 := by simp
  rw [h41.1, hlen]
  rfl

/-- Claim C5: for one model, transient failures are retried up to the
fixed bound of 3 attempts with back-off sleeps of 2s then 4s before the
loop gives up and falls through; with the stub failing transiently twice
then succeeding on the primary and an initially empty history, `chat`
returns the success reply, the trace shows 3 attempts with sleeps
[2, 4] against the primary only, and the stored history holds exactly one
human turn and one assistant turn. -/
theorem chat_transient_retry_backoff (user_id hello now reply : String) :
    (∀ gen : Nat → GenOutcome, (∀ a, gen a = .transient) →
        tryModel gen = (.giveUp, 3, [2, 4])) ∧
    (chat (none : File) user_id hello now
        (transientTwiceStub reply) .ok DEFAULT_MODEL).result = .ok reply ∧
    (chat (none : File) user_id hello now
        (transientTwiceStub reply) .ok DEFAULT_MODEL).trace
      = [(DEFAULT_MODEL, 3, [2, 4])] ∧
    history (chat (none : File) user_id hello now
        (transientTwiceStub reply) .ok DEFAULT_MODEL).disk user_id now
      = [userMsg hello now, modelMsg reply now] := by
  refine ⟨?_, rfl, rfl, rfl⟩
  intro gen h
  simp [tryModel, tryAttempts, h 1, h 2, h 3]

/-- Witness for claim C5 at a concrete input. -/
theorem chat_transient_retry_backoff_witness :
    tryModel (fun _ => GenOutcome.transient) = (.giveUp, 3, [2, 4]) ∧
    (chat (none : File) "u5" "hello" "t4"
        (transientTwiceStub "a reply") .ok DEFAULT_MODEL).result = .ok "a reply" :=
  ⟨(chat_transient_retry_backoff "u5" "hello" "t4" "a reply").1
      (fun _ => GenOutcome.transient) (fun _ => rfl),
    (chat_transient_retry_backoff "u5" "hello" "t4" "a reply").2.1⟩

/-- Claim C6: when every call in the stub fails retryably (transient or
rate-limit client error) for every model and attempt, `chat` fails with
the distinct exhaustion error `RateLimitError`, reported to the caller;
that error is distinguishable from a propagated single-model client
error and from an unexpected error. -/
theorem chat_exhaustion_distinct_error (disk : File)
    (user_id user_message now primary : String)
    (gen : String → Nat → GenOutcome) (fault : SaveFault)
    (h : ∀ m a, gen m a = .transient ∨
      ∃ c s, gen m a = .clientError c s ∧ isRateLimit c s = true) :
    (chat disk user_id user_message now gen fault primary).result
      = .error .rateLimited ∧
    (∀ c s, ChatError.rateLimited ≠ ChatError.client c s) ∧
    (∀ s, ChatError.rateLimited ≠ ChatError.unexpected s) := by
  refine ⟨?_, fun c s hcs => ChatError.noConfusion hcs,
    fun s hs => ChatError.noConfusion hs⟩
  have hx : (tryModels gen [primary, FALLBACK_MODEL]).1 = .exhausted :=
    tryModels_exhausted gen h [primary, FALLBACK_MODEL]
  rcases hq : tryModels gen [primary, FALLBACK_MODEL] with ⟨o, tr⟩
  rw [hq] at hx
  simp only at hx
  subst hx
  simp [chat, hq]

/-- Witness for claim C6 at a concrete input. -/
theorem chat_exhaustion_distinct_error_witness :
    (chat (none : File) "u6" "hello" "t5"
        (fun _ _ => .transient) .ok DEFAULT_MODEL).result
      = .error .rateLimited :=
  (chat_exhaustion_distinct_error (none : File) "u6" "hello" "t5"
    DEFAULT_MODEL (fun _ _ => .transient) .ok (fun _ _ => Or.inl rfl)).1

/-- Claim C7: `load_chat` is total (never fails): a missing file and an
unparsable file both yield a freshly initialized record with the given
user_id and an empty message list, while a valid file yields its stored
record unchanged. -/
theorem load_chat_never_fails (user_id now : String) :
    load_chat (none : File) user_id now = freshRecord user_id now ∧
    load_chat (some .corrupt) user_id now = freshRecord user_id now ∧
    (∀ r : Record, load_chat (some (.valid r)) user_id now = r) ∧
    (freshRecord user_id now).user_id = user_id ∧
    (freshRecord user_id now).messages = [] :=
  ⟨rfl, rfl, fun _ => rfl, rfl, rfl⟩

/-- Claim C8: `reset` succeeds for every prior state (it is total;
clearing a non-existent record is a no-op), and a subsequent `history`
returns the empty sequence. -/
theorem reset_then_history_empty (disk : File) (user_id obsNow : String) :
    history (reset disk) user_id obsNow = [] ∧
    reset (none : File) = (none : File) ∧
    reset disk = (none : File) :=
  ⟨rfl, rfl, rfl⟩

/-- Claim C9: `log_quote` for a user with no prior record creates a fresh
record containing exactly one turn: an assistant-role (`"model"`) entry
whose content embeds the event's verse text, reference, version and
source, with `event_type = "verse_delivery"` and matching meta fields.
`log_quote` takes no generation stub: generation is never invoked. -/
theorem log_quote_fresh_record (user_id text reference version src now : String) :
    log_quote (none : File) user_id text reference version src now .ok =
      some (.valid
        { user_id := user_id, created_at := now, updated_at := now,
          messages := [quoteMsg text reference version src now] }) ∧
    (quoteMsg text reference version src now).role = "model" ∧
    (quoteMsg text reference version src now).content =
      "[Verse sent to user | source=" ++ src ++ " | version=" ++ version
        ++ "]\n" ++ reference ++ "\n" ++ text ∧
    (quoteMsg text reference version src now).event_type
      = some "verse_delivery" ∧
    (quoteMsg text reference version src now).meta
      = some { reference := reference, version := version, src := src } :=
  ⟨rfl, rfl, rfl, rfl, rfl⟩

/-- Claim C10: when generation succeeds, `chat` returns the reply whatever
the fate of the final save (`save_chat` catches and only logs I/O
errors), and with a failing save the on-disk file — hence the stored
history — is unchanged: a successful return does not guarantee the new
turns were persisted. -/
theorem chat_returns_despite_save_failure (disk : File)
    (user_id user_message now obsNow primary reply : String)
    (gen : String → Nat → GenOutcome)
    (h : (chat disk user_id user_message now gen .ok primary).result = .ok reply) :
    (∀ fault : SaveFault,
        (chat disk user_id user_message now gen fault primary).result = .ok reply) ∧
    (chat disk user_id user_message now gen .openFail primary).disk = disk ∧
    history (chat disk user_id user_message now gen .openFail primary).disk
        user_id obsNow
      = history disk user_id obsNow := by
  rcases hq : tryModels gen [primary, FALLBACK_MODEL] with ⟨o, tr⟩
  cases o with
  | ok t =>
      simp only [chat, hq] at h ⊢
      exact ⟨fun fault => h, by simp [save_chat], by simp [save_chat]⟩
  | exhausted => simp [chat, hq] at h
  | fatal e => simp [chat, hq] at h

/-- Witness for claim C10 at a concrete input. -/
theorem chat_returns_despite_save_failure_witness :
    (chat (none : File) "u7" "hello" "t6"
        (fun _ _ => .success "ok reply") .writeFail DEFAULT_MODEL).result
      = .ok "ok reply" ∧
    (chat (none : File) "u7" "hello" "t6"
        (fun _ _ => .success "ok reply") .openFail DEFAULT_MODEL).disk
      = (none : File) :=
  ⟨(chat_returns_despite_save_failure (none : File) "u7" "hello" "t6" "t6"
      DEFAULT_MODEL "ok reply" (fun _ _ => .success "ok reply") rfl).1 .writeFail,
    (chat_returns_despite_save_failure (none : File) "u7" "hello" "t6" "t6"
      DEFAULT_MODEL "ok reply" (fun _ _ => .success "ok reply") rfl).2.1⟩

end Conversation
